import Mathlib

/-!
Verification development for the TrackSecure IoT telemetry repository.

Shallow embedding of the telemetry-distribution core:
* `SensorData` and the REST controller endpoints (`SensorController.java`),
* the WebSocket session registry, connection priming and broadcast fan-out
  (`SensorWebSocketHandler` in the backend `websocket` package),
* the client message filter/transform (`TrackingDashboard.tsx`, onMessage),
* the reconnecting WebSocket wrapper (`websocketService`, `connectWebSocket`)
  as a timer-driven state machine,
* the dashboard's primary/fallback endpoint selection layer
  (`TrackingDashboard.tsx`, `createHandler` / onClose) composed with two
  wrapper instances, as a timed transition system.

Numbers that are JavaScript/Java doubles are modelled as rationals (all the
constants involved — 30000, 1000, 1.5, 250 — and the finitely many backoff
products that matter are exactly representable, so no rounding is lost).
-/

/-! ## Backoff delay (websocketService, `scheduleReconnect`)

`const delay = Math.min(30000, 1000 * Math.pow(1.5, reconnectAttempts));`
as a function of the value of `reconnectAttempts` read at that line. -/

def delayFor (n : Nat) : ℚ := min 30000 (1000 * (1.5 : ℚ) ^ n)

/-! ## Server data model (`model/SensorData.java`) -/

structure DhtData where
  temperature : ℚ
  humidity : ℚ
  timestamp : String
deriving DecidableEq

structure GpsData where
  longitude : ℚ
  latitude : ℚ
  satellites : Int
  timestamp : String
deriving DecidableEq

structure SensorData where
  dhtData : DhtData
  gpsData : GpsData
deriving DecidableEq

/-- Model of `objectMapper.writeValueAsString(data)`: a fixed, total
serialization of a `SensorData` value to one string, computed once per
broadcast.  The exact text is irrelevant to every claim; what matters is
that it is a single pure function of the reading. -/
def serializeSensorData (d : SensorData) : String :=
  "dhtData(temperature=" ++ toString d.dhtData.temperature ++
  ",humidity=" ++ toString d.dhtData.humidity ++
  ",timestamp=" ++ d.dhtData.timestamp ++
  ") gpsData(longitude=" ++ toString d.gpsData.longitude ++
  ",latitude=" ++ toString d.gpsData.latitude ++
  ",satellites=" ++ toString d.gpsData.satellites ++
  ",timestamp=" ++ d.gpsData.timestamp ++ ")"

/-! ## REST controller (`controller/SensorController.java`)

`mqttService.getLatestData().get()` yields the current content of the
Latest-Value Cache; an empty cache yields no value (Java `null`).  A Java
unchecked exception escaping the handler is modelled as `Except.error`. -/

inductive JavaError where
  | nullPointer
deriving DecidableEq

/-- Modelled from the spec: `MqttService.getLatestData()` is not under
`src/`; per the spec the Latest-Value Cache is "a single mutable cell
holding `Optional<Reading>`; starts empty at process start", so before any
ingestion `getLatestData().get()` produces no value.  The call-site null
check in `SensorWebSocketHandler.afterConnectionEstablished`
(`latest != null`) shows the absent value surfaces as Java `null`,
modelled here as `none`. -/
def emptyCache : Option SensorData := none

/-- Endpoint `GET /api/sensor/latest`: `ResponseEntity.ok(data)` with a possibly
null body — a defined 200 response whether or not the cache is empty. -/
def getLatestSensorData (cache : Option SensorData) :
    Except JavaError (Option SensorData) :=
  Except.ok cache

/-- Endpoint `GET /api/sensor/dht`: `data.getDhtData()` is invoked on the cached
value with no null check, so an empty cache raises `NullPointerException`. -/
def getDhtData (cache : Option SensorData) : Except JavaError DhtData :=
  match cache with
  | none => Except.error JavaError.nullPointer
  | some d => Except.ok d.dhtData

/-- Endpoint `GET /api/sensor/gps`: `data.getGpsData()` is invoked on the cached
value with no null check, so an empty cache raises `NullPointerException`. -/
def getGpsData (cache : Option SensorData) : Except JavaError GpsData :=
  match cache with
  | none => Except.error JavaError.nullPointer
  | some d => Except.ok d.gpsData

/-! ## Session registry and broadcast fan-out (`SensorWebSocketHandler`) -/

/-- A push session: its id, whether `isOpen()` currently returns true, and
whether `sendMessage` throws when attempted on it. -/
structure Session where
  id : String
  isOpen : Bool
  sendFails : Bool
deriving DecidableEq

/-- Observable per-session outcome of a broadcast or priming send:
a successful delivery of a payload, a thrown-and-caught send
(`log.warn("WS: failed to send message ...")`), or a skip of a session
whose `isOpen()` is false (`log.debug("... is not open, skipping")`). -/
inductive BEvent where
  | sent (sid payload : String)
  | sendFailed (sid : String)
  | skippedNotOpen (sid : String)
deriving DecidableEq

/-- One iteration of the `sessions.forEach` body in `broadcastSensorData`:
the send is attempted only when `s.isOpen()`, and an exception from the
send is caught inside the loop body. -/
def broadcastStep (payload : String) (s : Session) : BEvent :=
  if s.isOpen then
    if s.sendFails then BEvent.sendFailed s.id
    else BEvent.sent s.id payload
  else BEvent.skippedNotOpen s.id

/-- Method `broadcastSensorData(data)`: serialize once, then iterate over the
registry snapshot; the registry itself is never mutated by the broadcast.
Returns the registry after the call and the list of per-session outcomes
in registry order. -/
def broadcastSensorData (data : SensorData) (sessions : List Session) :
    List Session × List BEvent :=
  (sessions, sessions.map (broadcastStep (serializeSensorData data)))

/-- Call `sessions.add(session)` on a `CopyOnWriteArraySet`: idempotent add. -/
def addSession (sessions : List Session) (s : Session) : List Session :=
  if sessions.any (fun x => x.id = s.id) then sessions else sessions ++ [s]

/-- Callback `afterConnectionEstablished`: register the session first; then, if the
cache holds a reading, attempt one best-effort priming send of its
serialization to the new session (a failure is caught and logged); if the
cache is empty (`latest == null`), send nothing. -/
def afterConnectionEstablished (cache : Option SensorData)
    (sessions : List Session) (s : Session) : List Session × List BEvent :=
  let reg := addSession sessions s
  match cache with
  | none => (reg, [])
  | some r =>
    (reg, [if s.sendFails then BEvent.sendFailed s.id
           else BEvent.sent s.id (serializeSensorData r)])

/-- Callback `afterConnectionClosed`: `sessions.remove(session)` — the only removal
path. -/
def afterConnectionClosed (sessions : List Session) (s : Session) :
    List Session :=
  sessions.filter (fun x => x.id ≠ s.id)

/-! ## Client frame filter and transform (`TrackingDashboard.tsx`, onMessage) -/

structure WsDht where
  temperature : Option ℚ
  humidity : Option ℚ
  timestamp : Option String
deriving DecidableEq

structure WsGps where
  latitude : Option ℚ
  longitude : Option ℚ
deriving DecidableEq

/-- A parsed inbound frame, with every field the handler dereferences
optionally absent (the handler receives untyped JSON). -/
structure WsMsg where
  dhtData : Option WsDht
  gpsData : Option WsGps
  packageId : Option String
deriving DecidableEq

/-- The canonical UI shape (`TrackingData`) the handler constructs. -/
structure TrackingData where
  temperature : ℚ
  humidity : ℚ
  lat : ℚ
  lon : ℚ
  timestamp : String
  packageId : String
deriving DecidableEq

/-- JavaScript truthiness of an optional string field: absent (`undefined`
or `null`) and the empty string are falsy. -/
def jsTruthy (s : Option String) : Bool :=
  match s with
  | none => false
  | some p => p ≠ ""

/-- Guard `msg.packageId && msg.packageId !== selectedPackageId`. -/
def discardFrame (sel : String) (m : WsMsg) : Bool :=
  jsTruthy m.packageId && m.packageId ≠ some sel

/-- The `transformed` object: each numeric field defaults to `0` via
`?? 0` when absent, the timestamp defaults to the current time via
`?? new Date().toISOString()`, and `packageId` falls back (nullishly) to
the selected identifier. -/
def transformMsg (sel now : String) (m : WsMsg) : TrackingData :=
  { temperature := ((m.dhtData.bind WsDht.temperature).getD 0)
    humidity := ((m.dhtData.bind WsDht.humidity).getD 0)
    lat := ((m.gpsData.bind WsGps.latitude).getD 0)
    lon := ((m.gpsData.bind WsGps.longitude).getD 0)
    timestamp := ((m.dhtData.bind WsDht.timestamp).getD now)
    packageId := (m.packageId.getD sel) }

/-- The onMessage callback as a function on the displayed tracking state:
`if (!msg) return; if (msg.packageId && msg.packageId !== selectedPackageId)
return;` then `setTrackingData(transformed)`. -/
def handleWsMessage (sel now : String) (current : Option TrackingData)
    (m : Option WsMsg) : Option TrackingData :=
  match m with
  | none => current
  | some m =>
    if discardFrame sel m then current
    else some (transformMsg sel now m)

/-! ## Reconnecting wrapper (`websocketService`, `connectWebSocket`)

The wrapper's mutable closure state, with the pending reconnect timer
carried as its absolute deadline (in ms, rational because the backoff
delays are non-integer from the fourth retry on). -/

inductive SockStatus where
  | connecting
  | opened
  | closed
deriving DecidableEq

structure Wrapper where
  shouldReconnect : Bool
  reconnectAttempts : Nat
  timer : Option ℚ
  sock : Option SockStatus
  wsNull : Bool
deriving DecidableEq

/-- Closure state right at entry of `connectWebSocket`, before the initial
`create()` call. -/
def wInit0 : Wrapper :=
  { shouldReconnect := true, reconnectAttempts := 0, timer := none
    sock := none, wsNull := true }

/-- Function `scheduleReconnect()` at current time `t`: increment
`reconnectAttempts` FIRST, then compute the delay from the incremented
value and arm the timer. -/
def wScheduleReconnect (t : ℚ) (w : Wrapper) : Wrapper :=
  { w with reconnectAttempts := w.reconnectAttempts + 1
           timer := some (t + delayFor (w.reconnectAttempts + 1)) }

/-- Function `create()` at time `t`.  `ctorThrows` — whether `new WebSocket(url)`
throws (caught, falls back to `scheduleReconnect`).  The returned `Bool`
records whether a transport connection attempt was actually made. -/
def wCreate (t : ℚ) (ctorThrows : Bool) (w : Wrapper) : Wrapper × Bool :=
  if ctorThrows then (wScheduleReconnect t w, false)
  else ({ w with sock := some SockStatus.connecting, wsNull := false }, true)

/-- Handler `ws.onopen`: reset the attempt counter. -/
def wOnOpen (w : Wrapper) : Wrapper :=
  { w with sock := some SockStatus.opened, reconnectAttempts := 0 }

/-- Handler `ws.onclose` after the external `onClose` callback has run:
`if (shouldReconnect) scheduleReconnect();`. -/
def wAfterClose (t : ℚ) (w : Wrapper) : Wrapper :=
  let w1 := { w with sock := some SockStatus.closed }
  if w1.shouldReconnect then wScheduleReconnect t w1 else w1

/-- The returned handle's `close()`: disable reconnection, clear any
pending timer, close and null out the socket reference (the socket's
already-attached onclose handler can still fire later). -/
def wClose (w : Wrapper) : Wrapper :=
  { w with shouldReconnect := false, timer := none, wsNull := true }

/-- Body of `connectWebSocket(url, ...)` body: initial state then `create()` at
time 0. -/
def connectWebSocketModel (ctorThrows : Bool) : Wrapper × Bool :=
  wCreate 0 ctorThrows wInit0

/-- Events the wrapper closure reacts to, each stamped with its time:
transport open, transport close, the reconnect timer firing at its
deadline (with the oracle for a throwing constructor), and the handle's
`close()`. -/
inductive WEvent where
  | sockOpen (t : ℚ)
  | sockClose (t : ℚ)
  | timerFire (t : ℚ) (ctorThrows : Bool)
  | handleClose (t : ℚ)
deriving DecidableEq

def WEvent.time : WEvent → ℚ
  | WEvent.sockOpen t => t
  | WEvent.sockClose t => t
  | WEvent.timerFire t _ => t
  | WEvent.handleClose t => t

/-- One wrapper event.  `none` marks an event impossible in that state (a
socket cannot open unless connecting, deliver close twice, or a timer fire
without being armed).  The `Bool` records whether a connection attempt was
made. -/
def wStep (w : Wrapper) (e : WEvent) : Option (Wrapper × Bool) :=
  match e with
  | WEvent.sockOpen _ =>
    if w.sock = some SockStatus.connecting then some (wOnOpen w, false)
    else none
  | WEvent.sockClose t =>
    if w.sock = some SockStatus.connecting ∨ w.sock = some SockStatus.opened
    then some (wAfterClose t w, false)
    else none
  | WEvent.timerFire t b =>
    if w.timer = some t then some (wCreate t b { w with timer := none })
    else none
  | WEvent.handleClose _ => some (wClose w, false)

/-- Run a list of wrapper events, accumulating the times of the connection
attempts that were made (newest first). -/
def wRun (w : Wrapper) (log : List ℚ) : List WEvent → Option (Wrapper × List ℚ)
  | [] => some (w, log)
  | e :: rest =>
    match wStep w e with
    | none => none
    | some (w', att) => wRun w' (if att then e.time :: log else log) rest

/-! ## Dashboard selection cycle (`TrackingDashboard.tsx`, WS effect)

One run of the `useEffect` body for a selected package: a primary wrapper
created immediately, an `attemptedFallback` flag, a one-shot 250 ms
substitution timer, and at most one fallback wrapper.  Connection attempts
are logged tagged by which URL they target. -/

inductive UrlTag where
  | primary
  | fallback
deriving DecidableEq

structure Dash where
  attemptedFallback : Bool
  fallbackTimer : Option ℚ
  activeIsFallback : Bool
  wsConnected : Bool
  unmounted : Bool
deriving DecidableEq

structure Sys where
  now : ℚ
  prim : Wrapper
  fb : Option Wrapper
  dash : Dash
  log : List (UrlTag × ℚ)
  substitutions : Nat
deriving DecidableEq

/-- Effect start: `activeHandle = createHandler(primaryUrl)`. -/
def sInit (ctorThrows : Bool) : Sys :=
  { now := 0
    prim := (wCreate 0 ctorThrows wInit0).1
    fb := none
    dash := { attemptedFallback := false, fallbackTimer := none
              activeIsFallback := false, wsConnected := false
              unmounted := false }
    log := if (wCreate 0 ctorThrows wInit0).2 then [(UrlTag.primary, 0)] else []
    substitutions := 0 }

inductive SEvent where
  | primOpen (t : ℚ)
  | primClose (t : ℚ)
  | primTimer (t : ℚ) (ctorThrows : Bool)
  | fbOpen (t : ℚ)
  | fbClose (t : ℚ)
  | fbTimer (t : ℚ) (ctorThrows : Bool)
  | dashFbTimer (t : ℚ) (ctorThrows : Bool)
  | unmount (t : ℚ)
deriving DecidableEq

def SEvent.time : SEvent → ℚ
  | SEvent.primOpen t => t
  | SEvent.primClose t => t
  | SEvent.primTimer t _ => t
  | SEvent.fbOpen t => t
  | SEvent.fbClose t => t
  | SEvent.fbTimer t _ => t
  | SEvent.dashFbTimer t _ => t
  | SEvent.unmount t => t

/-- Check that `t` does not jump past a pending timer deadline. -/
def deadlineGE (t : ℚ) : Option ℚ → Bool
  | none => true
  | some d => t ≤ d

/-- Event-loop validity of processing an event at time `t`: time moves
forward and no pending timer (either wrapper's reconnect timer or the
dashboard's fallback timer) has an earlier deadline — JavaScript timers
fire in deadline order, never late past another queued deadline. -/
def timeOK (s : Sys) (t : ℚ) : Bool :=
  decide (s.now ≤ t) && deadlineGE t s.prim.timer &&
  (match s.fb with
   | none => true
   | some w => deadlineGE t w.timer) &&
  deadlineGE t s.dash.fallbackTimer

/-- The dashboard `onClose` callback for url = primaryUrl: mark
disconnected; if the fallback was not yet attempted in this cycle, set the
flag and arm the 250 ms substitution timer. -/
def dashOnPrimClose (t : ℚ) (d : Dash) : Dash :=
  let d1 := { d with wsConnected := false }
  if d1.attemptedFallback then d1
  else { d1 with attemptedFallback := true, fallbackTimer := some (t + 250) }

/-- One system event. -/
def sStep (s : Sys) (e : SEvent) : Option Sys :=
  if timeOK s e.time then
    match e with
    | SEvent.primOpen t =>
      match wStep s.prim (WEvent.sockOpen t) with
      | none => none
      | some (w', _) =>
        some { s with now := t, prim := w'
                      dash := { s.dash with wsConnected := true } }
    | SEvent.primClose t =>
      match wStep s.prim (WEvent.sockClose t) with
      | none => none
      | some (w', _) =>
        some { s with now := t, prim := w', dash := dashOnPrimClose t s.dash }
    | SEvent.primTimer t b =>
      match wStep s.prim (WEvent.timerFire t b) with
      | none => none
      | some (w', att) =>
        some { s with now := t, prim := w'
                      log := if att then (UrlTag.primary, t) :: s.log else s.log }
    | SEvent.fbOpen t =>
      match s.fb with
      | none => none
      | some w =>
        match wStep w (WEvent.sockOpen t) with
        | none => none
        | some (w', _) =>
          some { s with now := t, fb := some w'
                        dash := { s.dash with wsConnected := true } }
    | SEvent.fbClose t =>
      match s.fb with
      | none => none
      | some w =>
        match wStep w (WEvent.sockClose t) with
        | none => none
        | some (w', _) =>
          some { s with now := t, fb := some w'
                        dash := { s.dash with wsConnected := false } }
    | SEvent.fbTimer t b =>
      match s.fb with
      | none => none
      | some w =>
        match wStep w (WEvent.timerFire t b) with
        | none => none
        | some (w', att) =>
          some { s with now := t, fb := some w'
                        log := if att then (UrlTag.fallback, t) :: s.log
                               else s.log }
    | SEvent.dashFbTimer t b =>
      if s.dash.fallbackTimer = some t then
        let s1 :=
          if s.dash.activeIsFallback then { s with fb := s.fb.map wClose }
          else { s with prim := wClose s.prim }
        let c := wCreate t b wInit0
        some { s1 with now := t, fb := some c.1
                       dash := { s1.dash with
                                 fallbackTimer := none
                                 activeIsFallback := true }
                       log := if c.2 then (UrlTag.fallback, t) :: s1.log
                              else s1.log
                       substitutions := s1.substitutions + 1 }
      else none
    | SEvent.unmount t =>
      if s.dash.unmounted then none
      else
        let s1 :=
          if s.dash.activeIsFallback then { s with fb := s.fb.map wClose }
          else { s with prim := wClose s.prim }
        some { s1 with now := t
                       dash := { s1.dash with
                                 wsConnected := false
                                 unmounted := true } }
  else none

def sRun (s : Sys) : List SEvent → Option Sys
  | [] => some s
  | e :: rest =>
    match sStep s e with
    | none => none
    | some s' => sRun s' rest

/-- The states one selection cycle can reach. -/
def SysReachable (s : Sys) : Prop :=
  ∃ (b : Bool) (evs : List SEvent), sRun (sInit b) evs = some s

/-- The attempt log (newest first) consists of a block of fallback-URL
attempts followed by a block of primary-URL attempts: no primary attempt
is ever newer than a fallback attempt. -/
def noPrimaryAfterFallback (l : List (UrlTag × ℚ)) : Bool :=
  (l.dropWhile (fun e => e.1 = UrlTag.fallback)).all
    (fun e => e.1 = UrlTag.primary)

/-- Log entries all target the primary URL. -/
def allPrimary (l : List (UrlTag × ℚ)) : Bool :=
  l.all (fun e => e.1 = UrlTag.primary)

/-- Inductive invariant of the selection cycle, strong enough to carry
the fallback-once property through every event. -/
def sysInv (s : Sys) : Prop :=
  (s.fb.isSome = true →
    s.prim.timer = none ∧ s.prim.shouldReconnect = false ∧
    s.dash.attemptedFallback = true)
  ∧ (s.fb = none → allPrimary s.log = true)
  ∧ noPrimaryAfterFallback s.log = true
  ∧ (s.dash.attemptedFallback = false →
      s.substitutions = 0 ∧ s.dash.fallbackTimer = none)
  ∧ s.substitutions +
      (match s.dash.fallbackTimer with | some _ => 1 | none => 0) ≤ 1
  ∧ (s.dash.activeIsFallback = true → s.fb.isSome = true)

/-! ## Concrete instances used by counterexamples and witnesses -/

/-- The Scenario A reading. -/
def data0 : SensorData :=
  { dhtData := { temperature := 22.5, humidity := 60, timestamp := "T1" }
    gpsData := { longitude := -6.84, latitude := 34.02, satellites := 7
                 timestamp := "T1" } }

def sessOk : Session := { id := "A", isOpen := true, sendFails := false }

def sessFail : Session := { id := "B", isOpen := true, sendFails := true }

def sessStale : Session := { id := "C", isOpen := false, sendFails := false }

def sessions0 : List Session := [sessOk, sessFail, sessStale]

/-- A frame whose `packageId` field is present but holds the empty string
(falsy in JavaScript). -/
def msgEmptyPkg : WsMsg :=
  { dhtData := none, gpsData := none, packageId := some "" }

/-- A frame with no `packageId` and every data field absent. -/
def msgBare : WsMsg := { dhtData := none, gpsData := none, packageId := none }

/-- A frame carrying the non-selected identifier `PKG-2`. -/
def msgPkg2 : WsMsg :=
  { dhtData := none, gpsData := none, packageId := some "PKG-2" }

/-- A wrapper right after a fresh successful open (`onopen` has reset
`reconnectAttempts` to 0). -/
def wFreshOpen : Wrapper :=
  { shouldReconnect := true, reconnectAttempts := 0, timer := none
    sock := some SockStatus.opened, wsNull := false }

/-- The wrapper state the code actually produces from `wFreshOpen` on its
first close: the counter already incremented, timer armed at 1500 ms. -/
def wFreshClosed : Wrapper :=
  { shouldReconnect := true, reconnectAttempts := 1, timer := some 1500
    sock := some SockStatus.closed, wsNull := false }

/-- A wrapper with a reconnect timer pending (first close happened at
t = 5, timer armed for t = 1505). -/
def wPend : Wrapper :=
  { shouldReconnect := true, reconnectAttempts := 1, timer := some 1505
    sock := some SockStatus.closed, wsNull := false }

/-- The cycle state after the primary socket closes at t = 10 (from
`sInit false`): fallback flag set, substitution timer armed for t = 260,
primary reconnect timer armed for t = 1510. -/
def sysA : Sys :=
  { now := 10
    prim := { shouldReconnect := true, reconnectAttempts := 1
              timer := some 1510, sock := some SockStatus.closed
              wsNull := false }
    fb := none
    dash := { attemptedFallback := true, fallbackTimer := some 260
              activeIsFallback := false, wsConnected := false
              unmounted := false }
    log := [(UrlTag.primary, 0)]
    substitutions := 0 }

/-- The fallback wrapper right after its creation at t = 260. -/
def fbW : Wrapper :=
  { shouldReconnect := true, reconnectAttempts := 0, timer := none
    sock := some SockStatus.connecting, wsNull := false }

/-- The cycle state after the substitution timer fires at t = 260: the
primary handle closed and cancelled, the fallback connection attempted. -/
def sysB : Sys :=
  { now := 260
    prim := { shouldReconnect := false, reconnectAttempts := 1
              timer := none, sock := some SockStatus.closed, wsNull := true }
    fb := some fbW
    dash := { attemptedFallback := true, fallbackTimer := none
              activeIsFallback := true, wsConnected := false
              unmounted := false }
    log := [(UrlTag.fallback, 260), (UrlTag.primary, 0)]
    substitutions := 1 }

/-- The cycle state after the fallback socket closes at t = 300: the
fallback wrapper retries the fallback URL via backoff (timer at 1800). -/
def sysC : Sys :=
  { now := 300
    prim := { shouldReconnect := false, reconnectAttempts := 1
              timer := none, sock := some SockStatus.closed, wsNull := true }
    fb := some { shouldReconnect := true, reconnectAttempts := 1
                 timer := some 1800, sock := some SockStatus.closed
                 wsNull := false }
    dash := { attemptedFallback := true, fallbackTimer := none
              activeIsFallback := true, wsConnected := false
              unmounted := false }
    log := [(UrlTag.fallback, 260), (UrlTag.primary, 0)]
    substitutions := 1 }

/-! ## Theorems -/

/-- Helper: the session just added by `addSession` is present (by id) in
the resulting registry. -/
theorem addSession_has_id (sessions : List Session) (s : Session) :
    (addSession sessions s).any (fun x => x.id == s.id) = true := by
  unfold addSession
  split
  · next h =>
    simpa using h
  · simp

/-- Helper: the first close after a fresh open arms the timer at 1500 ms
with the counter already incremented. -/
theorem wFreshOpen_close_eq :
    wStep wFreshOpen (WEvent.sockClose 0) = some (wFreshClosed, false) := by
  norm_num [wStep, wFreshOpen, wFreshClosed, wAfterClose, wScheduleReconnect,
    delayFor]

/-- C1: with an empty Latest-Value Cache, `GET /api/sensor/latest` returns
a defined empty 200 response, but `GET /api/sensor/dht` and
`GET /api/sensor/gps` dereference the absent cached value and raise
`NullPointerException` — the code violates the claim on those two
endpoints. -/
theorem C1_snapshot_empty_cache :
    getLatestSensorData emptyCache = Except.ok none ∧
    getDhtData emptyCache = Except.error JavaError.nullPointer ∧
    getGpsData emptyCache = Except.error JavaError.nullPointer :=
  ⟨rfl, rfl, rfl⟩

/-- C2 counterexample: on the first close after a fresh open
(`reconnectAttempts = 0`), the code schedules the reconnect after 1500 ms,
not after 1000 ms as the claim states, because the counter is incremented
before the delay is computed. -/
theorem C2_counterexample :
    wStep wFreshOpen (WEvent.sockClose 0) = some (wFreshClosed, false) ∧
    wFreshClosed.timer = some 1500 ∧ (1500 : ℚ) ≠ 1000 :=
  ⟨wFreshOpen_close_eq, rfl, by norm_num⟩

/-- Helper: the first backoff delay the code ever computes. -/
theorem delayFor_one : delayFor 1 = 1500 := by
  norm_num [delayFor]

/-- C2 amended: on any close with reconnection enabled, `attemptCount` is
incremented first and the reconnect is scheduled after
`min(30000, 1000 × 1.5^(attemptCount+1))` ms; in particular the first
reconnect after a fresh open is scheduled after 1500 ms. -/
theorem C2_close_backoff (w : Wrapper) (t : ℚ) (w' : Wrapper)
    (hr : w.shouldReconnect = true)
    (h : wStep w (WEvent.sockClose t) = some (w', false)) :
    w'.reconnectAttempts = w.reconnectAttempts + 1 ∧
    w'.timer = some (t + delayFor (w.reconnectAttempts + 1)) ∧
    (w.reconnectAttempts = 0 → w'.timer = some (t + 1500)) := by
  simp only [wStep] at h
  split at h
  · simp only [Option.some.injEq, Prod.mk.injEq] at h
    obtain ⟨hw, -⟩ := h
    subst hw
    refine ⟨?_, ?_, ?_⟩
    · simp [wAfterClose, wScheduleReconnect, hr]
    · simp [wAfterClose, wScheduleReconnect, hr]
    · intro h0
      simp [wAfterClose, wScheduleReconnect, hr, h0, delayFor_one]
  · exact absurd h (by simp)

/-- C2 witness: the amended claim evaluated at a freshly opened wrapper
closing at t = 0. -/
theorem C2_close_backoff_witness :
    wFreshClosed.reconnectAttempts = wFreshOpen.reconnectAttempts + 1 ∧
    wFreshClosed.timer = some ((0 : ℚ) + delayFor (wFreshOpen.reconnectAttempts + 1)) ∧
    (wFreshOpen.reconnectAttempts = 0 → wFreshClosed.timer = some ((0 : ℚ) + 1500)) :=
  C2_close_backoff wFreshOpen 0 wFreshClosed rfl wFreshOpen_close_eq

/-- C3: if one registered session's send throws during a broadcast, the
exception is caught (surfacing as a logged `sendFailed` outcome), every
other open non-failing registered session still receives the one
serialized payload, and the registry is left unchanged. -/
theorem C3_broadcast_isolation (data : SensorData) (sessions : List Session)
    (f s : Session) (hf : f ∈ sessions) (hfo : f.isOpen = true)
    (hft : f.sendFails = true) (hs : s ∈ sessions) (hso : s.isOpen = true)
    (hst : s.sendFails = false) :
    BEvent.sendFailed f.id ∈ (broadcastSensorData data sessions).2 ∧
    BEvent.sent s.id (serializeSensorData data) ∈
      (broadcastSensorData data sessions).2 ∧
    (broadcastSensorData data sessions).1 = sessions := by
  refine ⟨?_, ?_, rfl⟩
  · exact List.mem_map.mpr ⟨f, hf, by simp [broadcastStep, hfo, hft]⟩
  · exact List.mem_map.mpr ⟨s, hs, by simp [broadcastStep, hso, hst]⟩

/-- C3 witness: a registry of three sessions in which the middle one
throws; the first still receives the serialized reading. -/
theorem C3_broadcast_isolation_witness :
    BEvent.sendFailed sessFail.id ∈ (broadcastSensorData data0 sessions0).2 ∧
    BEvent.sent sessOk.id (serializeSensorData data0) ∈
      (broadcastSensorData data0 sessions0).2 ∧
    (broadcastSensorData data0 sessions0).1 = sessions0 :=
  C3_broadcast_isolation data0 sessions0 sessFail sessOk
    (by decide) rfl rfl (by decide) rfl rfl

/-- C10: a registered session whose `isOpen()` is false is skipped by the
broadcast — its slot in the outcome list is exactly the debug-logged skip,
no send is attempted on it, the outcomes of all other sessions are those
of broadcasting without it, and the registry is unchanged. -/
theorem C10_not_open_skipped (data : SensorData) (l1 l2 : List Session)
    (s : Session) (h : s.isOpen = false) :
    broadcastSensorData data (l1 ++ s :: l2) =
      (l1 ++ s :: l2,
       (broadcastSensorData data l1).2 ++
         BEvent.skippedNotOpen s.id :: (broadcastSensorData data l2).2) := by
  simp [broadcastSensorData, broadcastStep, h]

/-- C10 witness: the closed session `sessStale` between two open ones. -/
theorem C10_not_open_skipped_witness :
    broadcastSensorData data0 ([sessOk] ++ sessStale :: [sessFail]) =
      ([sessOk] ++ sessStale :: [sessFail],
       (broadcastSensorData data0 [sessOk]).2 ++
         BEvent.skippedNotOpen sessStale.id ::
           (broadcastSensorData data0 [sessFail]).2) :=
  C10_not_open_skipped data0 [sessOk] [sessFail] sessStale rfl

/-- C7: a connecting session is registered first; with a non-empty cache
it then receives exactly the serialized cached reading as its only priming
push (or, if that send throws, the failure is caught and the session is
nevertheless registered); with an empty cache it receives nothing. -/
theorem C7_connection_priming (sessions : List Session) (s : Session)
    (r : SensorData) :
    ((afterConnectionEstablished (some r) sessions s).1.any
        (fun x => x.id == s.id) = true) ∧
    (s.sendFails = false →
      (afterConnectionEstablished (some r) sessions s).2 =
        [BEvent.sent s.id (serializeSensorData r)]) ∧
    (s.sendFails = true →
      (afterConnectionEstablished (some r) sessions s).2 =
        [BEvent.sendFailed s.id]) ∧
    ((afterConnectionEstablished none sessions s).2 = []) ∧
    ((afterConnectionEstablished none sessions s).1.any
        (fun x => x.id == s.id) = true) := by
  refine ⟨addSession_has_id sessions s, ?_, ?_, rfl, addSession_has_id sessions s⟩
  · intro h
    simp [afterConnectionEstablished, h]
  · intro h
    simp [afterConnectionEstablished, h]

/-- C7 witness: priming with the Scenario A reading, for a healthy and a
throwing session, and a connect against the empty cache. -/
theorem C7_connection_priming_witness :
    (afterConnectionEstablished (some data0) [] sessOk).2 =
      [BEvent.sent sessOk.id (serializeSensorData data0)] ∧
    (afterConnectionEstablished (some data0) [] sessFail).2 =
      [BEvent.sendFailed sessFail.id] ∧
    (afterConnectionEstablished none [] sessOk).2 = [] ∧
    ((afterConnectionEstablished (some data0) [] sessFail).1.any
        (fun x => x.id == sessFail.id) = true) :=
  ⟨(C7_connection_priming [] sessOk data0).2.1 rfl,
   (C7_connection_priming [] sessFail data0).2.2.1 rfl,
   (C7_connection_priming [] sessOk data0).2.2.2.1,
   (C7_connection_priming [] sessFail data0).1⟩

/-- C6 counterexample: a frame whose `packageId` is present but equal to
the empty string differs from the selected identifier `"PKG-1"`, yet is
NOT discarded — the JavaScript truthiness test `msg.packageId &&` lets it
through and the displayed tracking data changes. -/
theorem C6_counterexample :
    msgEmptyPkg.packageId.isSome = true ∧
    msgEmptyPkg.packageId ≠ some "PKG-1" ∧
    handleWsMessage "PKG-1" "T0" none (some msgEmptyPkg) ≠ none := by
  refine ⟨rfl, by decide, by decide⟩

/-- C6 amended: a frame whose `packageId` is present, non-empty and
different from the selected identifier is discarded, leaving the displayed
tracking data unchanged; a frame with no `packageId` is not discarded by
this filter. -/
theorem C6_identifier_filter (sel now : String) (cur : Option TrackingData)
    (m : WsMsg) :
    (∀ p : String, m.packageId = some p → p ≠ "" → p ≠ sel →
       handleWsMessage sel now cur (some m) = cur) ∧
    (m.packageId = none →
       handleWsMessage sel now cur (some m) = some (transformMsg sel now m)) := by
  constructor
  · intro p hp hne hdiff
    simp [handleWsMessage, discardFrame, jsTruthy, hp, hne, hdiff]
  · intro hn
    simp [handleWsMessage, discardFrame, jsTruthy, hn]

/-- C6 witness: Scenario B — selected `"PKG-1"`, inbound frame carrying
`"PKG-2"` is discarded leaving the display unchanged; a bare frame with no
`packageId` is transformed. -/
theorem C6_identifier_filter_witness :
    handleWsMessage "PKG-1" "T0" (some (transformMsg "PKG-1" "T0" msgBare))
        (some msgPkg2) = some (transformMsg "PKG-1" "T0" msgBare) ∧
    handleWsMessage "PKG-1" "T0" none (some msgBare) =
      some (transformMsg "PKG-1" "T0" msgBare) :=
  ⟨(C6_identifier_filter "PKG-1" "T0" _ msgPkg2).1 "PKG-2" rfl
     (by decide) (by decide),
   (C6_identifier_filter "PKG-1" "T0" none msgBare).2 rfl⟩

/-- C8: every frame that passes the identifier filter is mapped into the
canonical UI shape, substituting 0 for each missing numeric field
(temperature, humidity, latitude, longitude) and the current time for a
missing timestamp. -/
theorem C8_missing_field_defaults (sel now : String) (cur : Option TrackingData)
    (m : WsMsg) (h : discardFrame sel m = false) :
    handleWsMessage sel now cur (some m) = some (transformMsg sel now m) ∧
    (m.dhtData.bind WsDht.temperature = none →
      (transformMsg sel now m).temperature = 0) ∧
    (m.dhtData.bind WsDht.humidity = none →
      (transformMsg sel now m).humidity = 0) ∧
    (m.gpsData.bind WsGps.latitude = none → (transformMsg sel now m).lat = 0) ∧
    (m.gpsData.bind WsGps.longitude = none → (transformMsg sel now m).lon = 0) ∧
    (m.dhtData.bind WsDht.timestamp = none →
      (transformMsg sel now m).timestamp = now) := by
  refine ⟨by simp [handleWsMessage, h], ?_, ?_, ?_, ?_, ?_⟩ <;>
    · intro hx
      simp [transformMsg, hx]

/-- C8 witness: the bare frame with every field absent maps to all-zero
numerics and the current time. -/
theorem C8_missing_field_defaults_witness :
    handleWsMessage "PKG-1" "T0" none (some msgBare) =
      some (transformMsg "PKG-1" "T0" msgBare) ∧
    (transformMsg "PKG-1" "T0" msgBare).temperature = 0 ∧
    (transformMsg "PKG-1" "T0" msgBare).humidity = 0 ∧
    (transformMsg "PKG-1" "T0" msgBare).lat = 0 ∧
    (transformMsg "PKG-1" "T0" msgBare).lon = 0 ∧
    (transformMsg "PKG-1" "T0" msgBare).timestamp = "T0" :=
  have h := C8_missing_field_defaults "PKG-1" "T0" none msgBare (by decide)
  ⟨h.1, h.2.1 rfl, h.2.2.1 rfl, h.2.2.2.1 rfl, h.2.2.2.2.1 rfl,
   h.2.2.2.2.2 rfl⟩

/-- C9: the reconnect delay `min(30000, 1000 × 1.5^attemptCount)` is
non-decreasing in the attempt count, and once it reaches the 30000 ms cap
it stays there. -/
theorem C9_backoff_monotone (n m : Nat) (h : n ≤ m) :
    delayFor n ≤ delayFor m ∧ (delayFor n = 30000 → delayFor m = 30000) := by
  have hpow : (1.5 : ℚ) ^ n ≤ (1.5 : ℚ) ^ m := pow_le_pow_right₀ (by norm_num) h
  have hmul : (1000 : ℚ) * (1.5 : ℚ) ^ n ≤ 1000 * (1.5 : ℚ) ^ m := by nlinarith
  unfold delayFor
  constructor
  · exact min_le_min le_rfl hmul
  · intro hcap
    have h30 : (30000 : ℚ) ≤ 1000 * (1.5 : ℚ) ^ n := min_eq_left_iff.mp hcap
    exact min_eq_left (le_trans h30 hmul)

/-- C9 witness: evaluated between attempt 1 and attempt 9 (where the cap
is reached). -/
theorem C9_backoff_monotone_witness :
    delayFor 1 ≤ delayFor 9 ∧ (delayFor 1 = 30000 → delayFor 9 = 30000) :=
  C9_backoff_monotone 1 9 (by norm_num)

/-- Helper: once `shouldReconnect` is false and no timer is pending, every
further valid event keeps it so, and no connection attempt is ever
logged. -/
theorem wRun_closed_inv (evs : List WEvent) :
    ∀ (w : Wrapper) (log : List ℚ) (w' : Wrapper) (log' : List ℚ),
    w.shouldReconnect = false → w.timer = none →
    wRun w log evs = some (w', log') →
    log' = log ∧ w'.shouldReconnect = false ∧ w'.timer = none := by
  induction evs with
  | nil =>
    intro w log w' log' hsr ht h
    simp only [wRun, Option.some.injEq, Prod.mk.injEq] at h
    obtain ⟨hw, hl⟩ := h
    subst hw
    subst hl
    exact ⟨rfl, hsr, ht⟩
  | cons e rest ih =>
    intro w log w' log' hsr ht h
    simp only [wRun] at h
    cases hw : wStep w e with
    | none =>
      rw [hw] at h
      cases h
    | some p =>
      obtain ⟨w1, att⟩ := p
      rw [hw] at h
      cases e with
      | sockOpen t =>
        simp only [wStep] at hw
        split at hw
        · simp only [Option.some.injEq, Prod.mk.injEq] at hw
          obtain ⟨hw1, hatt⟩ := hw
          subst hw1
          subst hatt
          simp only [Bool.false_eq_true, if_false] at h
          exact ih _ _ _ _ (by simpa [wOnOpen] using hsr)
            (by simpa [wOnOpen] using ht) h
        · cases hw
      | sockClose t =>
        simp only [wStep] at hw
        split at hw
        · simp only [Option.some.injEq, Prod.mk.injEq] at hw
          obtain ⟨hw1, hatt⟩ := hw
          subst hw1
          subst hatt
          simp only [Bool.false_eq_true, if_false] at h
          exact ih _ _ _ _ (by simp [wAfterClose, hsr])
            (by simp [wAfterClose, hsr, ht]) h
        · cases hw
      | timerFire t b =>
        simp only [wStep] at hw
        split at hw
        · next hguard =>
          rw [ht] at hguard
          cases hguard
        · cases hw
      | handleClose t =>
        simp only [wStep, Option.some.injEq, Prod.mk.injEq] at hw
        obtain ⟨hw1, hatt⟩ := hw
        subst hw1
        subst hatt
        simp only [Bool.false_eq_true, if_false] at h
        exact ih _ _ _ _ (by simp [wClose]) (by simp [wClose]) h

/-- C5: after `close()` is called on the handle — including with a
reconnect timer pending — no further reconnect is ever scheduled and no
new transport connection is created along any valid continuation, and
`close()` is idempotent. -/
theorem C5_close_final (w : Wrapper) (evs : List WEvent) (w' : Wrapper)
    (log' : List ℚ) (h : wRun (wClose w) [] evs = some (w', log')) :
    log' = [] ∧ w'.shouldReconnect = false ∧ w'.timer = none ∧
    wClose (wClose w) = wClose w := by
  have hres := wRun_closed_inv evs (wClose w) [] w' log' rfl rfl h
  exact ⟨hres.1, hres.2.1, hres.2.2, rfl⟩

/-- C5 witness: closing `wPend` (which has a reconnect timer pending for
t = 1505) and then calling `close()` again at t = 20. -/
theorem C5_close_final_witness :
    ([] : List ℚ) = [] ∧
    (Wrapper.mk false 1 none (some SockStatus.closed) true).shouldReconnect = false ∧
    (Wrapper.mk false 1 none (some SockStatus.closed) true).timer = none ∧
    wClose (wClose wPend) = wClose wPend :=
  C5_close_final wPend [WEvent.handleClose 20]
    (Wrapper.mk false 1 none (some SockStatus.closed) true) [] rfl

/-- Helper: an all-primary log trivially has no primary entry newer than a
fallback entry. -/
theorem allPrimary_npaf (l : List (UrlTag × ℚ)) (h : allPrimary l = true) :
    noPrimaryAfterFallback l = true := by
  cases l with
  | nil => rfl
  | cons a l =>
    simp only [allPrimary, List.all_cons, Bool.and_eq_true,
      decide_eq_true_eq] at h
    obtain ⟨ha, hl⟩ := h
    simp [noPrimaryAfterFallback, List.dropWhile, ha, allPrimary, hl]

/-- Helper: prepending a fallback attempt preserves the log shape. -/
theorem npaf_cons_fallback (t : ℚ) (l : List (UrlTag × ℚ))
    (h : noPrimaryAfterFallback l = true) :
    noPrimaryAfterFallback ((UrlTag.fallback, t) :: l) = true := by
  simpa [noPrimaryAfterFallback, List.dropWhile] using h

/-- Helper: prepending a primary attempt to an all-primary log. -/
theorem allPrimary_cons_primary (t : ℚ) (l : List (UrlTag × ℚ))
    (h : allPrimary l = true) :
    allPrimary ((UrlTag.primary, t) :: l) = true := by
  simpa [allPrimary] using h

/-- Helper: every system event preserves the selection-cycle invariant. -/
theorem sysInv_step (s : Sys) (e : SEvent) (s' : Sys)
    (hinv : sysInv s) (h : sStep s e = some s') : sysInv s' := by
  obtain ⟨h1, h2, h3, h4, h5, h6⟩ := hinv
  cases e with
  | primOpen t =>
    simp only [sStep, SEvent.time] at h
    split at h
    · cases hw : wStep s.prim (WEvent.sockOpen t) with
      | none => rw [hw] at h; cases h
      | some p =>
        obtain ⟨w1, att⟩ := p
        rw [hw] at h
        have hs' := Option.some.inj h
        subst hs'
        simp only [wStep] at hw
        split at hw
        · simp only [Option.some.injEq, Prod.mk.injEq] at hw
          obtain ⟨hw1, -⟩ := hw
          subst hw1
          exact ⟨h1, h2, h3, h4, h5, h6⟩
        · cases hw
    · cases h
  | primClose t =>
    simp only [sStep, SEvent.time] at h
    split at h
    · cases hw : wStep s.prim (WEvent.sockClose t) with
      | none => rw [hw] at h; cases h
      | some p =>
        obtain ⟨w1, att⟩ := p
        rw [hw] at h
        have hs' := Option.some.inj h
        subst hs'
        simp only [wStep] at hw
        split at hw
        · simp only [Option.some.injEq, Prod.mk.injEq] at hw
          obtain ⟨hw1, -⟩ := hw
          subst hw1
          by_cases haf : s.dash.attemptedFallback = true
          · refine ⟨?_, h2, h3, ?_, ?_, ?_⟩
            · intro hfb
              obtain ⟨ha, hb, hc⟩ := h1 hfb
              refine ⟨?_, ?_, ?_⟩
              · simp [wAfterClose, hb, ha]
              · simp [wAfterClose, hb]
              · simp [dashOnPrimClose, haf]
            · intro hx
              rw [show (dashOnPrimClose t s.dash).attemptedFallback = true
                from by simp [dashOnPrimClose, haf]] at hx
              cases hx
            · simpa [dashOnPrimClose, haf] using h5
            · simpa [dashOnPrimClose, haf] using h6
          · have haf' : s.dash.attemptedFallback = false := by
              revert haf
              cases s.dash.attemptedFallback <;> simp
            obtain ⟨hsub0, htim0⟩ := h4 haf'
            refine ⟨?_, h2, h3, ?_, ?_, ?_⟩
            · intro hfb
              obtain ⟨-, -, hc⟩ := h1 hfb
              rw [haf'] at hc
              cases hc
            · intro hx
              rw [show (dashOnPrimClose t s.dash).attemptedFallback = true
                from by simp [dashOnPrimClose, haf']] at hx
              cases hx
            · simp [dashOnPrimClose, haf', hsub0]
            · simpa [dashOnPrimClose, haf'] using h6
        · cases hw
    · cases h
  | primTimer t b =>
    simp only [sStep, SEvent.time] at h
    split at h
    · cases hw : wStep s.prim (WEvent.timerFire t b) with
      | none => rw [hw] at h; cases h
      | some p =>
        obtain ⟨w1, att⟩ := p
        rw [hw] at h
        have hs' := Option.some.inj h
        subst hs'
        simp only [wStep] at hw
        split at hw
        · next hguard =>
          simp only [Option.some.injEq] at hw
          have hfbnone : s.fb = none := by
            cases hfb : s.fb with
            | none => rfl
            | some w =>
              obtain ⟨ha, -, -⟩ := h1 (by simp [hfb])
              rw [ha] at hguard
              cases hguard
          have hap : allPrimary s.log = true := h2 hfbnone
          cases b with
          | true =>
            simp only [wCreate, if_true] at hw
            obtain ⟨-, hatt⟩ := Prod.mk.injEq .. |>.mp hw
            subst hatt
            refine ⟨?_, ?_, ?_, h4, h5, h6⟩
            · intro hfb
              rw [hfbnone] at hfb
              cases hfb
            · intro _
              simpa using hap
            · simpa using h3
          | false =>
            simp only [wCreate, if_false] at hw
            obtain ⟨-, hatt⟩ := Prod.mk.injEq .. |>.mp hw
            subst hatt
            refine ⟨?_, ?_, ?_, h4, h5, h6⟩
            · intro hfb
              rw [hfbnone] at hfb
              cases hfb
            · intro _
              simpa using allPrimary_cons_primary t s.log hap
            · simpa using allPrimary_npaf _
                (allPrimary_cons_primary t s.log hap)
        · cases hw
    · cases h
  | fbOpen t =>
    simp only [sStep, SEvent.time] at h
    split at h
    · cases hfb : s.fb with
      | none =>
        simp only [hfb] at h
        cases h
      | some w =>
        simp only [hfb] at h
        cases hw : wStep w (WEvent.sockOpen t) with
        | none => rw [hw] at h; cases h
        | some p =>
          obtain ⟨w1, att⟩ := p
          rw [hw] at h
          have hs' := Option.some.inj h
          subst hs'
          exact ⟨fun _ => h1 (by simp [hfb]), fun hx => Option.noConfusion hx,
            h3, h4, h5, fun _ => rfl⟩
    · cases h
  | fbClose t =>
    simp only [sStep, SEvent.time] at h
    split at h
    · cases hfb : s.fb with
      | none =>
        simp only [hfb] at h
        cases h
      | some w =>
        simp only [hfb] at h
        cases hw : wStep w (WEvent.sockClose t) with
        | none => rw [hw] at h; cases h
        | some p =>
          obtain ⟨w1, att⟩ := p
          rw [hw] at h
          have hs' := Option.some.inj h
          subst hs'
          exact ⟨fun _ => h1 (by simp [hfb]), fun hx => Option.noConfusion hx,
            h3, h4, h5, fun _ => rfl⟩
    · cases h
  | fbTimer t b =>
    simp only [sStep, SEvent.time] at h
    split at h
    · cases hfb : s.fb with
      | none =>
        simp only [hfb] at h
        cases h
      | some w =>
        simp only [hfb] at h
        cases hw : wStep w (WEvent.timerFire t b) with
        | none => rw [hw] at h; cases h
        | some p =>
          obtain ⟨w1, att⟩ := p
          rw [hw] at h
          have hs' := Option.some.inj h
          subst hs'
          simp only [wStep] at hw
          split at hw
          · simp only [Option.some.injEq] at hw
            cases b with
            | true =>
              simp only [wCreate, if_true] at hw
              obtain ⟨-, hatt⟩ := Prod.mk.injEq .. |>.mp hw
              subst hatt
              refine ⟨fun _ => h1 (by simp [hfb]),
                fun hx => Option.noConfusion hx, ?_, h4, h5, fun _ => rfl⟩
              simpa using h3
            | false =>
              simp only [wCreate, if_false] at hw
              obtain ⟨-, hatt⟩ := Prod.mk.injEq .. |>.mp hw
              subst hatt
              refine ⟨fun _ => h1 (by simp [hfb]),
                fun hx => Option.noConfusion hx, ?_, h4, h5, fun _ => rfl⟩
              simpa using npaf_cons_fallback t s.log h3
          · cases hw
    · cases h
  | dashFbTimer t b =>
    simp only [sStep, SEvent.time] at h
    split at h
    · split at h
      · next hft =>
        have hs' := Option.some.inj h
        subst hs'
        have haf : s.dash.attemptedFallback = true := by
          by_cases hx : s.dash.attemptedFallback = true
          · exact hx
          · have hx' : s.dash.attemptedFallback = false := by
              revert hx
              cases s.dash.attemptedFallback <;> simp
            obtain ⟨-, htim⟩ := h4 hx'
            rw [htim] at hft
            cases hft
        have hsub1 : s.substitutions + 1 ≤ 1 := by
          have h5' := h5
          rw [hft] at h5'
          exact h5'
        by_cases hai : s.dash.activeIsFallback = true
        · rw [if_pos hai]
          have hfbs : s.fb.isSome = true := h6 hai
          obtain ⟨hpt, hps, -⟩ := h1 hfbs
          refine ⟨?_, fun hx => Option.noConfusion hx, ?_, ?_, ?_,
            fun _ => rfl⟩
          · intro _
            exact ⟨hpt, hps, haf⟩
          · cases hb : (wCreate t b wInit0).2
            · simpa [hb] using h3
            · simpa [hb] using npaf_cons_fallback t s.log h3
          · intro hx
            rw [show ({ s with fb := s.fb.map wClose } : Sys).dash.attemptedFallback
              = true from haf] at hx
            cases hx
          · simpa using Nat.le_trans (Nat.le_refl _) hsub1
        · rw [if_neg hai]
          refine ⟨?_, fun hx => Option.noConfusion hx, ?_, ?_, ?_,
            fun _ => rfl⟩
          · intro _
            exact ⟨rfl, rfl, haf⟩
          · cases hb : (wCreate t b wInit0).2
            · simpa [hb] using h3
            · simpa [hb] using npaf_cons_fallback t s.log h3
          · intro hx
            rw [show ({ s with prim := wClose s.prim } : Sys).dash.attemptedFallback
              = true from haf] at hx
            cases hx
          · simpa using Nat.le_trans (Nat.le_refl _) hsub1
      · cases h
    · cases h
  | unmount t =>
    simp only [sStep, SEvent.time] at h
    split at h
    · split at h
      · cases h
      · have hs' := Option.some.inj h
        subst hs'
        by_cases hai : s.dash.activeIsFallback = true
        · rw [if_pos hai]
          refine ⟨?_, ?_, h3, h4, h5, ?_⟩
          · intro hfb
            have hfbs : s.fb.isSome = true := by
              cases hfb2 : s.fb with
              | none => rw [hfb2] at hfb; cases hfb
              | some w => rfl
            exact h1 hfbs
          · intro hfb
            have : s.fb = none := by
              cases hfb2 : s.fb with
              | none => rfl
              | some w => rw [hfb2] at hfb; cases hfb
            exact h2 this
          · intro _
            have := h6 hai
            cases hfb2 : s.fb with
            | none => rw [hfb2] at this; cases this
            | some w => simp [hfb2]
        · rw [if_neg hai]
          refine ⟨?_, h2, h3, h4, h5, ?_⟩
          · intro hfb
            obtain ⟨-, -, hc⟩ := h1 hfb
            exact ⟨rfl, rfl, hc⟩
          · intro hx
            exact absurd hx hai
    · cases h

/-- Helper: every event sequence preserves the invariant. -/
theorem sysInv_run (evs : List SEvent) :
    ∀ (s s' : Sys), sysInv s → sRun s evs = some s' → sysInv s' := by
  induction evs with
  | nil =>
    intro s s' hi h
    simp only [sRun, Option.some.injEq] at h
    subst h
    exact hi
  | cons e rest ih =>
    intro s s' hi h
    simp only [sRun] at h
    cases hs : sStep s e with
    | none => rw [hs] at h; cases h
    | some s1 =>
      rw [hs] at h
      exact ih s1 s' (sysInv_step s e s1 hi hs) h

/-- Helper: the invariant holds at the start of the cycle. -/
theorem sysInv_init (b : Bool) : sysInv (sInit b) := by
  cases b
  · refine ⟨?_, fun _ => rfl, rfl, fun _ => ⟨rfl, rfl⟩, by decide, ?_⟩
    · intro hx
      cases hx
    · intro hx
      cases hx
  · refine ⟨?_, fun _ => rfl, rfl, fun _ => ⟨rfl, rfl⟩, by decide, ?_⟩
    · intro hx
      cases hx
    · intro hx
      cases hx

/-- Helper: every reachable state of the cycle satisfies the invariant. -/
theorem reachable_sysInv (s : Sys) (h : SysReachable s) : sysInv s := by
  obtain ⟨b, evs, hrun⟩ := h
  exact sysInv_run evs (sInit b) s (sysInv_init b) hrun

/-- Helper: the first step of the demonstration trace — the primary socket
closes at t = 10. -/
theorem sStep_init_primClose :
    sStep (sInit false) (SEvent.primClose 10) = some sysA := by
  have h0 : sInit false =
      { now := 0
        prim := { shouldReconnect := true, reconnectAttempts := 0
                  timer := none, sock := some SockStatus.connecting
                  wsNull := false }
        fb := none
        dash := { attemptedFallback := false, fallbackTimer := none
                  activeIsFallback := false, wsConnected := false
                  unmounted := false }
        log := [(UrlTag.primary, 0)]
        substitutions := 0 } := by
    simp [sInit, wCreate, wInit0]
  rw [h0]
  simp only [sStep, SEvent.time, wStep, timeOK, deadlineGE, wAfterClose,
    wScheduleReconnect, dashOnPrimClose, sysA]
  norm_num [delayFor]

/-- Helper: the substitution timer fires at t = 260. -/
theorem sStep_sysA_dashTimer :
    sStep sysA (SEvent.dashFbTimer 260 false) = some sysB := by
  simp only [sStep, SEvent.time, sysA, sysB, timeOK, deadlineGE, wClose,
    wCreate, wInit0, fbW]
  norm_num

/-- Helper: the fallback socket closes at t = 300 and the fallback URL is
retried via backoff. -/
theorem sStep_sysB_fbClose :
    sStep sysB (SEvent.fbClose 300) = some sysC := by
  simp only [sStep, SEvent.time, sysB, sysC, timeOK, deadlineGE, fbW, wStep,
    wAfterClose, wScheduleReconnect]
  norm_num [delayFor]

/-- Helper: `sysA` is reachable. -/
theorem sRun_sysA :
    sRun (sInit false) [SEvent.primClose 10] = some sysA := by
  simp [sRun, sStep_init_primClose]

/-- Helper: `sysB` is reachable. -/
theorem sRun_sysB :
    sRun (sInit false)
      [SEvent.primClose 10, SEvent.dashFbTimer 260 false] = some sysB := by
  simp [sRun, sStep_init_primClose, sStep_sysA_dashTimer]

/-- C4: within one selection cycle, at most one primary-to-fallback
substitution ever happens; a close of the primary while the fallback was
not yet attempted arms the substitution timer for exactly 250 ms later;
when that timer fires the fallback URL is attempted at that instant; no
primary-URL connection attempt is ever newer than a fallback-URL attempt;
and every later close of the fallback transport re-schedules the fallback
URL via the backoff path. -/
theorem C4_fallback_once (s s1 s2 s3 : Sys) (w : Wrapper) (t : ℚ)
    (hr : SysReachable s) :
    s.substitutions ≤ 1 ∧
    noPrimaryAfterFallback s.log = true ∧
    (s.dash.attemptedFallback = false →
      sStep s (SEvent.primClose t) = some s1 →
      s1.dash.fallbackTimer = some (t + 250)) ∧
    (sStep s (SEvent.dashFbTimer t false) = some s2 →
      s.dash.fallbackTimer = some t ∧
      s2.log = (UrlTag.fallback, t) :: s.log ∧
      s2.substitutions = s.substitutions + 1) ∧
    (s.fb = some w → w.shouldReconnect = true →
      sStep s (SEvent.fbClose t) = some s3 →
      ∃ w', s3.fb = some w' ∧
        w'.reconnectAttempts = w.reconnectAttempts + 1 ∧
        w'.timer = some (t + delayFor (w.reconnectAttempts + 1))) := by
  obtain ⟨h1, h2, h3, h4, h5, h6⟩ := reachable_sysInv s hr
  refine ⟨Nat.le_trans (Nat.le_add_right _ _) h5, h3, ?_, ?_, ?_⟩
  · intro haf hstep
    simp only [sStep, SEvent.time] at hstep
    split at hstep
    · cases hw : wStep s.prim (WEvent.sockClose t) with
      | none => rw [hw] at hstep; cases hstep
      | some p =>
        obtain ⟨w1, att⟩ := p
        rw [hw] at hstep
        have hs1 := Option.some.inj hstep
        subst hs1
        simp [dashOnPrimClose, haf]
    · cases hstep
  · intro hstep
    simp only [sStep, SEvent.time] at hstep
    split at hstep
    · split at hstep
      · next hft =>
        have hs2 := Option.some.inj hstep
        subst hs2
        refine ⟨hft, ?_⟩
        by_cases hai : s.dash.activeIsFallback = true
        · rw [if_pos hai]
          exact ⟨by simp [wCreate, wInit0], rfl⟩
        · rw [if_neg hai]
          exact ⟨by simp [wCreate, wInit0], rfl⟩
      · cases hstep
    · cases hstep
  · intro hfb hsr hstep
    simp only [sStep, SEvent.time] at hstep
    split at hstep
    · simp only [hfb] at hstep
      cases hw : wStep w (WEvent.sockClose t) with
      | none => rw [hw] at hstep; cases hstep
      | some p =>
        obtain ⟨w1, att⟩ := p
        rw [hw] at hstep
        have hs3 := Option.some.inj hstep
        subst hs3
        simp only [wStep] at hw
        split at hw
        · simp only [Option.some.injEq, Prod.mk.injEq] at hw
          obtain ⟨hw1, -⟩ := hw
          subst hw1
          refine ⟨wAfterClose t w, rfl, ?_, ?_⟩
          · simp [wAfterClose, wScheduleReconnect, hsr]
          · simp [wAfterClose, wScheduleReconnect, hsr]
        · cases hw
    · cases hstep

/-- C4 witness: the demonstration trace — primary attempted at t = 0,
primary closes at t = 10, the substitution fires at t = 260 producing the
single fallback attempt, the fallback closes at t = 300 and retries the
fallback URL with backoff. -/
theorem C4_fallback_once_witness :
    sysB.substitutions ≤ 1 ∧
    noPrimaryAfterFallback sysB.log = true ∧
    sysA.dash.fallbackTimer = some ((10 : ℚ) + 250) ∧
    (sysA.dash.fallbackTimer = some 260 ∧
      sysB.log = (UrlTag.fallback, 260) :: sysA.log ∧
      sysB.substitutions = sysA.substitutions + 1) ∧
    (∃ w', sysC.fb = some w' ∧
      w'.reconnectAttempts = fbW.reconnectAttempts + 1 ∧
      w'.timer = some ((300 : ℚ) + delayFor (fbW.reconnectAttempts + 1))) :=
  have hInit : SysReachable (sInit false) := ⟨false, [], rfl⟩
  have hA : SysReachable sysA := ⟨false, [SEvent.primClose 10], sRun_sysA⟩
  have hB : SysReachable sysB :=
    ⟨false, [SEvent.primClose 10, SEvent.dashFbTimer 260 false], sRun_sysB⟩
  ⟨(C4_fallback_once sysB sysB sysB sysB fbW 0 hB).1,
   (C4_fallback_once sysB sysB sysB sysB fbW 0 hB).2.1,
   (C4_fallback_once (sInit false) sysA sysA sysA fbW 10 hInit).2.2.1 rfl
     sStep_init_primClose,
   (C4_fallback_once sysA sysA sysB sysA fbW 260 hA).2.2.2.1
     sStep_sysA_dashTimer,
   (C4_fallback_once sysB sysB sysB sysC fbW 300 hB).2.2.2.2 rfl rfl
     sStep_sysB_fbClose⟩
